import Mathlib

/-!
Verification development for the Action Optimization & Lifecycle Engine
(`be/optimizer.py`, `be/actions_service.py`, in-memory store `be/db_fallback.py`,
data model `be/models.py`).

Python floats are embedded as `ℚ` (the decimal literals of the source are exact
rationals); `round(x, 2)` / `round(x, 1)` become `round2` / `round1` below
(rounding ties half-up; no tie is exercised by any statement).  Dictionaries
with `.get` defaults become structures whose field defaults mirror the `.get`
defaults.  Fallible code (the `IndexError` reachable in the schedule
calculator) is embedded with `Except Unit`.
-/

deriving instance DecidableEq for Except

namespace SmartGrid

-- The four rational operations below ship `@[irreducible]`; restoring the
-- default reducibility lets concrete instances of the definitions in this
-- file be evaluated by `decide`.
attribute [local semireducible] Rat.mul Rat.add Rat.sub Rat.inv List.merge List.mergeSort

/-- Floor of a rational, written out on `num`/`den` so that the kernel can
evaluate it (`Int.fdiv` is floor division). -/
def ratFloor (x : ℚ) : ℤ := Int.fdiv x.num (x.den : ℤ)

/-- Round a rational to the nearest integer (ties away from zero upward);
models Python `round` on the values arising here, none of which is a tie. -/
def ratRound (x : ℚ) : ℤ := ratFloor (x + 1/2)

/-- `round(x, 2)` of the source (Python's 2-decimal rounding). -/
def round2 (x : ℚ) : ℚ := (ratRound (x * 100) : ℤ) / 100

/-- `round(x, 1)` of the source (Python's 1-decimal rounding). -/
def round1 (x : ℚ) : ℚ := (ratRound (x * 10) : ℤ) / 10

/-- The decimal digits of a natural number, most significant first; the first
argument is computation fuel (any value `≥ n` is enough). -/
def natDigitsAux : ℕ → ℕ → List Char
  | 0, _ => []
  | fuel + 1, n =>
    if n = 0 then []
    else natDigitsAux fuel (n / 10) ++ [Char.ofNat (48 + n % 10)]

/-- Decimal rendering of a natural number. -/
def natToStr (n : ℕ) : String :=
  if n = 0 then "0" else (natDigitsAux (n + 1) n).asString

/-- Decimal rendering of an integer. -/
def intToStr (i : ℤ) : String :=
  match i with
  | .ofNat n => natToStr n
  | .negSucc n => "-" ++ natToStr (n + 1)

/-- Pad a digit string with leading zeros to the given length. -/
def padZeros (len : ℕ) (s : String) : String :=
  (List.replicate (len - s.length) '0').asString ++ s

/-- Python f-string `:.0f` formatting of a float embedded as `ℚ`. -/
def fmtF0 (q : ℚ) : String := intToStr (ratRound q)

/-- Python f-string `:.1f` formatting of a float embedded as `ℚ`. -/
def fmtF1 (q : ℚ) : String :=
  let n : ℤ := ratRound (q * 10)
  (if n < 0 then "-" else "") ++ natToStr (n.natAbs / 10) ++ "." ++ natToStr (n.natAbs % 10)

/-- Python `str(float)` rendering, exact on the decimal-representable values
the modeled literals produce (for other rationals the expansion is truncated
at 30 decimal places; no statement below depends on that case). -/
def pyFloatStr (q : ℚ) : String :=
  if q.den = 1 then intToStr q.num ++ ".0"
  else
    let k := (((List.range 31).find? fun k => q.den ∣ 10 ^ k).getD 30)
    let n : ℤ := q.num * ((10 ^ k : ℤ) / (q.den : ℤ))
    (if q.num < 0 then "-" else "") ++
      natToStr (n.natAbs / 10 ^ k) ++ "." ++ padZeros k (natToStr (n.natAbs % 10 ^ k))

/-- Python `str.lower` (over the characters of the string). -/
def pyLower (s : String) : String := (s.toList.map Char.toLower).asString

/-- Split a character list on a separator character; mirrors Python
`str.split(sep)` for a one-character separator. -/
def splitCharAux (sep : Char) : List Char → List Char → List String
  | [], acc => [acc.reverse.asString]
  | c :: cs, acc =>
    if c = sep then acc.reverse.asString :: splitCharAux sep cs []
    else splitCharAux sep cs (c :: acc)

/-- Python `s.split(sep)` for a one-character separator. -/
def splitChar (sep : Char) (s : String) : List String := splitCharAux sep s.toList []

/-- Digits-to-number parse helper: `none` unless the list is nonempty and all
decimal digits. -/
def digitsToNat : List Char → Option ℕ
  | [] => none
  | cs =>
    if cs.all Char.isDigit then
      some (cs.foldl (fun acc c => acc * 10 + (c.toNat - 48)) 0)
    else none

/-- Python `int(str)`: optional surrounding spaces, optional sign, decimal
digits; `none` models the `ValueError` it otherwise raises. -/
def pyInt (s : String) : Option ℤ :=
  let cs := (s.toList.dropWhile (· = ' ')).reverse.dropWhile (· = ' ') |>.reverse
  match cs with
  | '-' :: rest => (digitsToNat rest).map fun n => -(n : ℤ)
  | '+' :: rest => (digitsToNat rest).map fun n => (n : ℤ)
  | rest => (digitsToNat rest).map fun n => (n : ℤ)

/-- Python substring test `pat in hay` (always true for the empty pattern). -/
def strContains (hay pat : String) : Bool :=
  (List.range (hay.toList.length + 1)).any fun i => pat.toList.isPrefixOf (hay.toList.drop i)

/-! ## Data model (`be/models.py`) -/

/-- A device record as consumed by the optimizer (`propose_actions` receives
plain dicts; `.get` defaults of the source become the field defaults here;
`power` is flattened to its two consumed entries, absent keys default to 0). -/
structure Device where
  id : String := ""
  label : String := "Unknown"
  category : String := ""
  standby_watts_typical : ℚ := 0
  active_watts_typical : ℚ := 0
  active_hours_per_day : Option ℚ := none
  is_critical : Bool := false
deriving DecidableEq, Repr

/-- `Assumptions` (models.py) with its pydantic defaults. -/
structure Assumptions where
  rate_per_kwh : ℚ := 3/10
  kg_co2_per_kwh : ℚ := 42/100
  profile : String := "typical"
  standby_reduction : ℚ := 8/10
deriving DecidableEq, Repr

/-- `PROFILE_ACTIVE_HOURS` (models.py). -/
def PROFILE_ACTIVE_HOURS : List (String × ℚ) :=
  [("light", 2), ("typical", 4), ("heavy", 8)]

/-- `ActionParameters` (models.py) with its defaults; `when` is carried but
never set by the engine. -/
structure ActionParameters where
  whenAt : Option String := none
  plug_model : Option String := none
  cost_usd : ℚ := 0
  standby_reduction : ℚ := 8/10
  schedule_off_start : Option String := none
  schedule_off_end : Option String := none
  eco_mode : Option String := none
  replacement_model : Option String := none
  replacement_cost_usd : ℚ := 0
deriving DecidableEq, Repr

/-- `ActionProposal` (models.py). -/
structure ActionProposal where
  deviceId : String
  label : String
  action_type : String
  parameters : ActionParameters
  estimated_annual_kwh_saved : ℚ
  estimated_annual_dollars_saved : ℚ
  estimated_co2_kg_saved : ℚ
  estimated_cost_usd : ℚ
  payback_months : ℚ
  feasibility_score : ℚ
  rationale : String
  safety_flags : List String
deriving DecidableEq, Repr

/-! ## Savings calculators (`be/optimizer.py`) -/

/-- `SMART_PLUG_COST` (optimizer.py). -/
def SMART_PLUG_COST : ℚ := 15

/-- `ECO_MODE_REDUCTION` (optimizer.py). -/
def ECO_MODE_REDUCTION : ℚ := 15/100

/-- `device.get("active_hours_per_day", PROFILE_ACTIVE_HOURS.get(assumptions.profile, 4.0))`. -/
def activeHoursOf (device : Device) (a : Assumptions) : ℚ :=
  device.active_hours_per_day.getD ((PROFILE_ACTIVE_HOURS.lookup a.profile).getD 4)

/-- `_compute_smart_plug_saving` (optimizer.py lines 52-85). -/
def compute_smart_plug_saving (device : Device) (a : Assumptions) : Option ActionProposal :=
  let standby_w := device.standby_watts_typical
  if standby_w < 1/2 then none
  else
    let active_hours := activeHoursOf device a
    let standby_hours := 24 - active_hours
    let kwh_saved := standby_w * a.standby_reduction * standby_hours * 365 / 1000
    let dollars_saved := kwh_saved * a.rate_per_kwh
    let co2_saved := kwh_saved * a.kg_co2_per_kwh
    let cost := SMART_PLUG_COST
    let payback := if dollars_saved > 0 then cost / dollars_saved * 12 else 999
    some
      { deviceId := device.id
        label := device.label
        action_type := "smart_plug"
        parameters :=
          { plug_model := some "generic_wifi"
            cost_usd := cost
            standby_reduction := a.standby_reduction }
        estimated_annual_kwh_saved := round2 kwh_saved
        estimated_annual_dollars_saved := round2 dollars_saved
        estimated_co2_kg_saved := round2 co2_saved
        estimated_cost_usd := cost
        payback_months := round1 payback
        feasibility_score := 9/10
        rationale :=
          "Smart plug eliminates " ++ fmtF0 (a.standby_reduction * 100) ++ "% of " ++
            pyFloatStr standby_w ++ "W standby draw during " ++ fmtF0 standby_hours ++
            "h idle time."
        safety_flags := [] }

/-- The `int(parts[i].split(":")[0])` hour parse of the schedule calculator;
`none` models the exception caught by its `try/except`. -/
def parseHour (part : String) : Option ℤ :=
  pyInt ((splitChar ':' part).headD "")

/-- The guarded `schedule_hours` computation of `_compute_schedule_saving`
(lines 95-104): `(end_h - start_h) % 24` from the first quiet range, any
exception inside the `try` yielding the default 8. -/
def scheduleHoursOf (quiet_hours : List String) : ℤ :=
  match quiet_hours with
  | [] => 8
  | q :: _ =>
    match splitChar '-' q with
    | p0 :: p1 :: _ =>
      match parseHour p0, parseHour p1 with
      | some s, some e => (e - s) % 24
      | _, _ => 8
    | _ => 8

/-- `_compute_schedule_saving` (optimizer.py lines 88-131).  A `none` quiet
list of the source is passed as `[]` (both are falsy).  `Except.error ()`
models the `IndexError` raised at line 120 (`quiet_hours[0].split("-")[1]`)
when the first quiet entry contains no `-`: that subscript sits outside the
`try/except` that guards the hour parse. -/
def compute_schedule_saving (device : Device) (a : Assumptions) (quiet_hours : List String) :
    Except Unit (Option ActionProposal) :=
  let standby_w := device.standby_watts_typical
  let schedule_hours := scheduleHoursOf quiet_hours
  let kwh_saved := standby_w * (schedule_hours : ℚ) * 365 / 1000
  let dollars_saved := kwh_saved * a.rate_per_kwh
  let co2_saved := kwh_saved * a.kg_co2_per_kwh
  if dollars_saved < 1/2 then .ok none
  else
    match quiet_hours with
    | [] =>
      .ok (some
        { deviceId := device.id
          label := device.label
          action_type := "schedule"
          parameters :=
            { schedule_off_start := some "23:00"
              schedule_off_end := some "07:00"
              cost_usd := 0 }
          estimated_annual_kwh_saved := round2 kwh_saved
          estimated_annual_dollars_saved := round2 dollars_saved
          estimated_co2_kg_saved := round2 co2_saved
          estimated_cost_usd := 0
          payback_months := 0
          feasibility_score := 85/100
          rationale :=
            "Scheduling " ++ device.label ++ " off during quiet hours saves " ++
              fmtF1 kwh_saved ++ " kWh/year from eliminated standby."
          safety_flags := [] })
    | q :: _ =>
      match splitChar '-' q with
      | p0 :: p1 :: _ =>
        .ok (some
          { deviceId := device.id
            label := device.label
            action_type := "schedule"
            parameters :=
              { schedule_off_start := some p0
                schedule_off_end := some p1
                cost_usd := 0 }
            estimated_annual_kwh_saved := round2 kwh_saved
            estimated_annual_dollars_saved := round2 dollars_saved
            estimated_co2_kg_saved := round2 co2_saved
            estimated_cost_usd := 0
            payback_months := 0
            feasibility_score := 85/100
            rationale :=
              "Scheduling " ++ device.label ++ " off during quiet hours saves " ++
                fmtF1 kwh_saved ++ " kWh/year from eliminated standby."
            safety_flags := [] })
      | _ => .error ()

/-- `eco_categories` (optimizer.py line 150). -/
def eco_categories : List String :=
  ["Television", "TV", "Monitor", "Laptop", "Air Conditioner", "Washing Machine",
   "Dryer", "Refrigerator"]

/-- `_compute_eco_mode_saving` (optimizer.py lines 134-167). -/
def compute_eco_mode_saving (device : Device) (a : Assumptions) : Option ActionProposal :=
  let active_w := device.active_watts_typical
  let active_hours := activeHoursOf device a
  let watts_saved := active_w * ECO_MODE_REDUCTION
  let kwh_saved := watts_saved * active_hours * 365 / 1000
  let dollars_saved := kwh_saved * a.rate_per_kwh
  let co2_saved := kwh_saved * a.kg_co2_per_kwh
  if dollars_saved < 1 then none
  else if !(eco_categories.contains device.category) then none
  else
    some
      { deviceId := device.id
        label := device.label
        action_type := "set_mode"
        parameters := { eco_mode := some "eco", cost_usd := 0 }
        estimated_annual_kwh_saved := round2 kwh_saved
        estimated_annual_dollars_saved := round2 dollars_saved
        estimated_co2_kg_saved := round2 co2_saved
        estimated_cost_usd := 0
        payback_months := 0
        feasibility_score := 75/100
        rationale :=
          "Eco mode reduces active power by ~" ++ fmtF0 (ECO_MODE_REDUCTION * 100) ++
            "%, saving " ++ fmtF1 kwh_saved ++ " kWh/year during " ++ fmtF0 active_hours ++
            "h daily use."
        safety_flags := [] }

/-- `_compute_turn_off_saving` (optimizer.py lines 170-197). -/
def compute_turn_off_saving (device : Device) (a : Assumptions) : Option ActionProposal :=
  let standby_w := device.standby_watts_typical
  if standby_w < 1 then none
  else
    let active_hours := activeHoursOf device a
    let standby_hours := 24 - active_hours
    let kwh_saved := standby_w * standby_hours * 365 / 1000
    let dollars_saved := kwh_saved * a.rate_per_kwh
    let co2_saved := kwh_saved * a.kg_co2_per_kwh
    some
      { deviceId := device.id
        label := device.label
        action_type := "turn_off"
        parameters := { cost_usd := 0 }
        estimated_annual_kwh_saved := round2 kwh_saved
        estimated_annual_dollars_saved := round2 dollars_saved
        estimated_co2_kg_saved := round2 co2_saved
        estimated_cost_usd := 0
        payback_months := 0
        feasibility_score := 7/10
        rationale :=
          "Manually unplugging when not in use eliminates " ++ pyFloatStr standby_w ++
            "W standby for " ++ fmtF0 standby_hours ++ "h/day."
        safety_flags := ["requires_manual_action"] }

/-- `replacement_costs` (optimizer.py lines 219-224). -/
def replacement_costs : List (String × ℚ) :=
  [("Television", 400), ("TV", 400), ("Refrigerator", 800), ("Washing Machine", 600),
   ("Dryer", 700), ("Microwave", 150), ("Air Conditioner", 500),
   ("Space Heater", 80), ("Oven", 1200), ("Monitor", 250), ("Laptop", 800),
   ("Light Bulb", 8), ("Toaster", 40), ("Hair Dryer", 40), ("Phone Charger", 20)]

/-- `_compute_replace_saving` (optimizer.py lines 200-248). -/
def compute_replace_saving (device : Device) (a : Assumptions) : Option ActionProposal :=
  let active_w := device.active_watts_typical
  let active_hours := activeHoursOf device a
  let reduction : ℚ := 3/10
  let watts_saved := active_w * reduction
  let standby_w := device.standby_watts_typical
  let new_standby := max (3/10) (standby_w * (1/2))
  let standby_saved := standby_w - new_standby
  let standby_hours := 24 - active_hours
  let kwh_saved := (watts_saved * active_hours + standby_saved * standby_hours) * 365 / 1000
  let dollars_saved := kwh_saved * a.rate_per_kwh
  let co2_saved := kwh_saved * a.kg_co2_per_kwh
  let cost := (replacement_costs.lookup device.category).getD 200
  let payback := if dollars_saved > 0 then cost / dollars_saved * 12 else 999
  if payback > 120 then none
  else
    some
      { deviceId := device.id
        label := device.label
        action_type := "replace"
        parameters :=
          { replacement_model := some "ENERGY STAR equivalent"
            replacement_cost_usd := cost
            cost_usd := cost }
        estimated_annual_kwh_saved := round2 kwh_saved
        estimated_annual_dollars_saved := round2 dollars_saved
        estimated_co2_kg_saved := round2 co2_saved
        estimated_cost_usd := cost
        payback_months := round1 payback
        feasibility_score := 1/2
        rationale :=
          "Replacing with ENERGY STAR model saves ~" ++ fmtF0 (reduction * 100) ++
            "% active power (" ++ fmtF0 watts_saved ++ "W). Payback in " ++ fmtF0 payback ++
            " months."
        safety_flags := ["requires_purchase"] }

/-! ## Candidate generator and greedy ranker (`propose_actions`, optimizer.py 255-337) -/

/-- `Constraints` dict of `propose_actions`; `none` fields model absent keys
(the `.get` defaults are applied inside `propose_actions`). -/
structure Constraints where
  max_actions : Option ℤ := none
  budget_usd : Option ℚ := none
  do_not_turn_off : Option (List String) := none
  quiet_hours : Option (List String) := none
deriving DecidableEq, Repr

/-- The `is_protected` test of optimizer.py lines 279-282: some entry of the
lower-cased do-not-turn-off list is a substring of the device's lower-cased
label or category. -/
def isProtectedDev (do_not_turn_off : List String) (device : Device) : Bool :=
  do_not_turn_off.any fun name =>
    strContains (pyLower device.label) name || strContains (pyLower device.category) name

/-- The critical-device conversion applied to a smart-plug proposal
(optimizer.py lines 290-293). -/
def convertCriticalPlug (p : ActionProposal) : ActionProposal :=
  { p with
    action_type := "suggest_manual"
    feasibility_score := 4/10
    safety_flags := p.safety_flags ++ ["critical_device"]
    rationale := "[Critical] " ++ p.rationale ++ " — requires manual approval." }

/-- The critical-device conversion applied to a schedule proposal
(optimizer.py lines 300-302). -/
def convertCriticalSchedule (p : ActionProposal) : ActionProposal :=
  { p with
    action_type := "suggest_manual"
    safety_flags := p.safety_flags ++ ["critical_device"] }

/-- The smart-plug block of the candidate loop (optimizer.py lines 284-294):
`if proposal and not (is_critical and is_protected): append`
`elif proposal and is_critical: convert-and-append`. -/
def smart_plug_block (device : Device) (a : Assumptions)
    (is_critical is_protected : Bool) : List ActionProposal :=
  match compute_smart_plug_saving device a with
  | none => []
  | some p =>
    if !(is_critical && is_protected) then [p]
    else if is_critical then [convertCriticalPlug p]
    else []

/-- The schedule block of the candidate loop (optimizer.py lines 296-303). -/
def schedule_block (device : Device) (a : Assumptions) (quiet_hours : List String)
    (is_critical is_protected : Bool) : Except Unit (List ActionProposal) :=
  if !is_protected then
    match compute_schedule_saving device a quiet_hours with
    | .error e => .error e
    | .ok none => .ok []
    | .ok (some p) => .ok (if is_critical then [convertCriticalSchedule p] else [p])
  else .ok []

/-- The turn-off block of the candidate loop (optimizer.py lines 310-314). -/
def turn_off_block (device : Device) (a : Assumptions)
    (is_critical is_protected : Bool) : List ActionProposal :=
  if !is_critical && !is_protected then
    (compute_turn_off_saving device a).toList
  else []

/-- One iteration of the candidate loop of `propose_actions`
(optimizer.py lines 273-319), producing this device's candidates in
append order. -/
def deviceCandidates (device : Device) (a : Assumptions) (do_not_turn_off : List String)
    (quiet_hours : List String) : Except Unit (List ActionProposal) :=
  let is_critical := device.is_critical
  let is_protected := isProtectedDev do_not_turn_off device
  match schedule_block device a quiet_hours is_critical is_protected with
  | .error e => .error e
  | .ok sched =>
    .ok (smart_plug_block device a is_critical is_protected ++ sched ++
      (compute_eco_mode_saving device a).toList ++
      turn_off_block device a is_critical is_protected ++
      (compute_replace_saving device a).toList)

/-- The full candidate loop over all devices. -/
def allCandidates (devices : List Device) (a : Assumptions) (do_not_turn_off : List String)
    (quiet_hours : List String) : Except Unit (List ActionProposal) :=
  match devices with
  | [] => .ok []
  | d :: ds =>
    match deviceCandidates d a do_not_turn_off quiet_hours with
    | .error e => .error e
    | .ok cs =>
      match allCandidates ds a do_not_turn_off quiet_hours with
      | .error e => .error e
      | .ok rest => .ok (cs ++ rest)

/-- The ranking key of optimizer.py line 323:
`c.estimated_annual_dollars_saved / max(0.1, c.estimated_cost_usd)`. -/
def rankKey (c : ActionProposal) : ℚ :=
  c.estimated_annual_dollars_saved / max (1/10) c.estimated_cost_usd

/-- `candidates.sort(key=rankKey, reverse=True)` — a stable descending sort. -/
def rankCandidates (candidates : List ActionProposal) : List ActionProposal :=
  candidates.mergeSort fun x y => decide (rankKey y ≤ rankKey x)

/-- The greedy budget scan of optimizer.py lines 328-336, with the running
selected count and remaining budget explicit. -/
def greedyLoop (max_actions : ℤ) : List ActionProposal → ℕ → ℚ → List ActionProposal
  | [], _, _ => []
  | c :: cs, count, remaining =>
    if max_actions ≤ (count : ℤ) then []
    else if c.estimated_cost_usd ≤ remaining then
      c :: greedyLoop max_actions cs (count + 1) (remaining - c.estimated_cost_usd)
    else greedyLoop max_actions cs count remaining

/-- `propose_actions` (optimizer.py lines 255-337).  `Except.error ()` models
the `IndexError` that the schedule calculator can raise (see
`compute_schedule_saving`); on every dash-containing quiet-hours entry the
function is error-free. -/
def propose_actions (devices : List Device) (a : Assumptions) (constraints : Constraints)
    (top_n : ℕ) : Except Unit (List ActionProposal) :=
  let max_actions : ℤ := constraints.max_actions.getD (top_n : ℤ)
  let budget : ℚ := constraints.budget_usd.getD 999999
  let do_not_turn_off := (constraints.do_not_turn_off.getD []).map pyLower
  let quiet_hours := constraints.quiet_hours.getD ["23:00-07:00"]
  match allCandidates devices a do_not_turn_off quiet_hours with
  | .error e => .error e
  | .ok candidates =>
    .ok ((greedyLoop max_actions (rankCandidates candidates) 0 budget).take top_n)

/-! ## LLM-backed optimizer (`propose_actions_with_llm`, optimizer.py 344-458) -/

/-- One raw item of the parsed external response, before per-item validation;
every field the adapter reads is optional (`.get` / subscript on a dict). -/
structure RawLlmItem where
  deviceId : Option String := none
  label : Option String := none
  action_type : Option String := none
  param_cost_usd : Option ℚ := none
  param_standby_reduction : Option ℚ := none
  param_schedule_off_start : Option String := none
  param_schedule_off_end : Option String := none
  param_plug_model : Option String := none
  param_eco_mode : Option String := none
  param_replacement_model : Option String := none
  param_replacement_cost_usd : Option ℚ := none
  estimated_annual_kwh_saved : Option ℚ := none
  estimated_annual_dollars_saved : Option ℚ := none
  estimated_co2_kg_saved : Option ℚ := none
  estimated_cost_usd : Option ℚ := none
  payback_months : Option ℚ := none
  feasibility_score : Option ℚ := none
  rationale : Option String := none
  safety_flags : Option (List String) := none
deriving DecidableEq, Repr

/-- The `ActionType` literal of models.py, which pydantic enforces when an
`ActionProposal` is constructed from an external item. -/
def actionTypeLiterals : List String :=
  ["turn_off", "schedule", "smart_plug", "set_mode", "replace", "suggest_manual"]

/-- Per-item validation of optimizer.py lines 420-449: the `try` around the
`ActionProposal(...)` constructor.  `none` models the caught exception: a
missing `deviceId`/`action_type` subscript, or pydantic rejecting the
`action_type` literal or an out-of-range `feasibility_score`. -/
def validateLlmItem (p : RawLlmItem) : Option ActionProposal :=
  match p.deviceId, p.action_type with
  | some did, some act =>
    let fs := p.feasibility_score.getD (1/2)
    if actionTypeLiterals.contains act ∧ 0 ≤ fs ∧ fs ≤ 1 then
      some
        { deviceId := did
          label := p.label.getD "Unknown"
          action_type := act
          parameters :=
            { cost_usd := p.param_cost_usd.getD 0
              standby_reduction := p.param_standby_reduction.getD (8/10)
              schedule_off_start := p.param_schedule_off_start
              schedule_off_end := p.param_schedule_off_end
              plug_model := p.param_plug_model
              eco_mode := p.param_eco_mode
              replacement_model := p.param_replacement_model
              replacement_cost_usd := p.param_replacement_cost_usd.getD 0 }
          estimated_annual_kwh_saved := p.estimated_annual_kwh_saved.getD 0
          estimated_annual_dollars_saved := p.estimated_annual_dollars_saved.getD 0
          estimated_co2_kg_saved := p.estimated_co2_kg_saved.getD 0
          estimated_cost_usd := p.estimated_cost_usd.getD 0
          payback_months := p.payback_months.getD 0
          feasibility_score := fs
          rationale := p.rationale.getD ""
          safety_flags := p.safety_flags.getD [] }
    else none
  | _, _ => none

/-- `propose_actions_with_llm` (optimizer.py lines 344-458).  `google_api_key`
is the `GOOGLE_API_KEY` environment value (`""` when unset); `llm` models the
outcome of the whole guarded external call: `.error ()` for any exception in
the `try` block (import, network, timeout, JSON parse), `.ok items` for the
`proposals_raw` list after code-fence stripping and envelope normalization. -/
def propose_actions_with_llm (google_api_key : String)
    (llm : Except Unit (List RawLlmItem)) (devices : List Device) (a : Assumptions)
    (constraints : Constraints) (top_n : ℕ) : Except Unit (List ActionProposal) :=
  if google_api_key = "" then propose_actions devices a constraints top_n
  else
    match llm with
    | .error _ => propose_actions devices a constraints top_n
    | .ok raw =>
      let proposals := (raw.take top_n).filterMap validateLlmItem
      if proposals = [] then propose_actions devices a constraints top_n
      else .ok proposals

/-! ## Action lifecycle (`be/actions_service.py` over the in-memory store of
`be/db_fallback.py`; timestamps are abstract `ℕ` ticks passed for each
`datetime.now` call) -/

/-- The `estimated_savings` snapshot written by `store_proposals`
(actions_service.py lines 77-83). -/
structure EstimatedSavings where
  dollars_per_year : ℚ
  kwh_per_year : ℚ
  co2_kg_per_year : ℚ
  cost_usd : ℚ
  payback_months : ℚ
deriving DecidableEq, Repr

/-- The persisted action document (the dict built at actions_service.py
lines 69-90). -/
structure ActionDocM where
  homeId : String
  deviceId : String
  label : String
  action_type : String
  parameters : ActionParameters
  status : String
  agentId : String
  estimated_savings : EstimatedSavings
  feasibility_score : ℚ
  rationale : String
  safety_flags : List String
  createdAt : ℕ
  executedAt : Option ℕ
  revertedAt : Option ℕ
deriving DecidableEq, Repr

/-- The `actions` collection of the in-memory store: an id-keyed association
list in insertion order (`MemCollection` over an insertion-ordered dict). -/
abbrev Store := List (String × ActionDocM)

/-- `find_one({"_id": aid})`: first (unique) document with the given id. -/
def findOne (store : Store) (aid : String) : Option ActionDocM :=
  ((store : List (String × ActionDocM)).find? fun kv => kv.1 = aid).map (·.2)

/-- `update_one({"_id": aid}, {"$set": ...})`: apply the field update to the
first (unique) document with the given id. -/
def updateFirst (f : ActionDocM → ActionDocM) (aid : String) : Store → Store
  | ([] : List (String × ActionDocM)) => []
  | kv :: rest =>
    if kv.1 = aid then (kv.1, f kv.2) :: rest
    else kv :: updateFirst f aid rest

/-- The ActionDoc built by `store_proposals` for one proposal
(actions_service.py lines 69-90). -/
def mkActionDoc (home_id : String) (p : ActionProposal) (createdAt : ℕ) : ActionDocM :=
  { homeId := home_id
    deviceId := p.deviceId
    label := p.label
    action_type := p.action_type
    parameters := p.parameters
    status := "proposed"
    agentId := "ai_agent_v1"
    estimated_savings :=
      { dollars_per_year := p.estimated_annual_dollars_saved
        kwh_per_year := p.estimated_annual_kwh_saved
        co2_kg_per_year := p.estimated_co2_kg_saved
        cost_usd := p.estimated_cost_usd
        payback_months := p.payback_months }
    feasibility_score := p.feasibility_score
    rationale := p.rationale
    safety_flags := p.safety_flags
    createdAt := createdAt
    executedAt := none
    revertedAt := none }

/-- `_next_id("actions")` of db_fallback.py: `"mem_actions_<counter>"`. -/
def memId (counter : ℕ) : String := "mem_actions_" ++ toString counter

/-- `store_proposals` (actions_service.py lines 65-94), threading the store
and the id counter; returns the new store, the generated ids and the new
counter. -/
def store_proposals (home_id : String) (createdAt : ℕ) :
    List ActionProposal → Store → ℕ → Store × List String × ℕ
  | [], store, counter => (store, [], counter)
  | p :: ps, store, counter =>
    let aid := memId (counter + 1)
    let doc := mkActionDoc home_id p createdAt
    let (store1, ids, counter1) :=
      store_proposals home_id createdAt ps
        ((store : List (String × ActionDocM)) ++ [(aid, doc)]) (counter + 1)
    (store1, aid :: ids, counter1)

/-- The six action kinds `_execute_single_action` recognizes; each simulated
execution succeeds, an unknown kind yields `{success: false}`
(actions_service.py lines 156-203). -/
def knownActionTypes : List String :=
  ["turn_off", "schedule", "smart_plug", "set_mode", "replace", "suggest_manual"]

/-- Per-id result record returned by `execute_actions`. -/
structure ExecResult where
  id : String
  status : String
  error : Option String
deriving DecidableEq, Repr

/-- Processing of one id inside `execute_actions`
(actions_service.py lines 107-152). -/
def exec_one (store : Store) (now : ℕ) (aid : String) : Store × ExecResult :=
  match findOne store aid with
  | none => (store, ⟨aid, "not_found", some "Action not found"⟩)
  | some doc =>
    if doc.status = "proposed" ∨ doc.status = "scheduled" then
      if knownActionTypes.contains doc.action_type then
        (updateFirst (fun d => { d with status := "executed", executedAt := some now }) aid store,
          ⟨aid, "executed", none⟩)
      else
        (updateFirst (fun d => { d with status := "failed" }) aid store,
          ⟨aid, "failed", some ("Unknown action type: " ++ doc.action_type)⟩)
    else
      (store, ⟨aid, doc.status, some ("Cannot execute action in state " ++ doc.status)⟩)

/-- `execute_actions` (actions_service.py lines 101-153): each id processed
independently and sequentially, threading the store. -/
def execute_actions : List String → Store → ℕ → Store × List ExecResult
  | [], store, _ => (store, [])
  | aid :: rest, store, now =>
    let sr := exec_one store now aid
    let srs := execute_actions rest sr.1 now
    (srs.1, sr.2 :: srs.2)

/-- Result record returned by `revert_action`. -/
structure RevertResult where
  success : Bool
  error : Option String
  status : Option String
  action_id : Option String
deriving DecidableEq, Repr

/-- `revert_action` (actions_service.py lines 210-230). -/
def revert_action (store : Store) (now : ℕ) (aid : String) : Store × RevertResult :=
  match findOne store aid with
  | none => (store, ⟨false, some "Action not found", none, none⟩)
  | some doc =>
    if doc.status = "executed" then
      (updateFirst (fun d => { d with status := "reverted", revertedAt := some now }) aid store,
        ⟨true, none, some "reverted", some aid⟩)
    else
      (store, ⟨false, some ("Cannot revert action in state " ++ doc.status), none, none⟩)

/-- The summary returned by `compute_action_savings`. -/
structure SavingsSummary where
  executed_actions : ℕ
  total_annual_kwh_saved : ℚ
  total_annual_dollars_saved : ℚ
  total_annual_co2_kg_saved : ℚ
deriving DecidableEq, Repr

/-- The docs `find({"homeId": h, "status": "executed"})` matches, in store
order. -/
def executedDocs (store : Store) (home_id : String) : List ActionDocM :=
  ((store : List (String × ActionDocM)).map (·.2)).filter fun d =>
    d.homeId = home_id && d.status = "executed"

/-- `compute_action_savings` (actions_service.py lines 257-277). -/
def compute_action_savings (store : Store) (home_id : String) : SavingsSummary :=
  let docs := executedDocs store home_id
  { executed_actions := docs.length
    total_annual_kwh_saved :=
      round2 (docs.foldl (fun acc d => acc + d.estimated_savings.kwh_per_year) 0)
    total_annual_dollars_saved :=
      round2 (docs.foldl (fun acc d => acc + d.estimated_savings.dollars_per_year) 0)
    total_annual_co2_kg_saved :=
      round2 (docs.foldl (fun acc d => acc + d.estimated_savings.co2_kg_per_year) 0) }

/-! ## Derived notions used by the statements -/

/-- Total `estimated_cost_usd` of a proposal list. -/
def sumCost (l : List ActionProposal) : ℚ := (l.map (·.estimated_cost_usd)).sum

/-- Field-wise agreement of two ActionDocs on everything except `status` and
`executedAt` (the two fields a successful execution sets; a failed execution
sets `status` only). -/
def sameExceptExec (d e : ActionDocM) : Prop :=
  d.homeId = e.homeId ∧ d.deviceId = e.deviceId ∧ d.label = e.label ∧
  d.action_type = e.action_type ∧ d.parameters = e.parameters ∧
  d.agentId = e.agentId ∧ d.estimated_savings = e.estimated_savings ∧
  d.feasibility_score = e.feasibility_score ∧ d.rationale = e.rationale ∧
  d.safety_flags = e.safety_flags ∧ d.createdAt = e.createdAt ∧
  d.revertedAt = e.revertedAt

/-- Field-wise agreement of two ActionDocs on everything except `status` and
`revertedAt` (the two fields a revert sets). -/
def sameExceptRevert (d e : ActionDocM) : Prop :=
  d.homeId = e.homeId ∧ d.deviceId = e.deviceId ∧ d.label = e.label ∧
  d.action_type = e.action_type ∧ d.parameters = e.parameters ∧
  d.agentId = e.agentId ∧ d.estimated_savings = e.estimated_savings ∧
  d.feasibility_score = e.feasibility_score ∧ d.rationale = e.rationale ∧
  d.safety_flags = e.safety_flags ∧ d.createdAt = e.createdAt ∧
  d.executedAt = e.executedAt

/-! ## Concrete inputs used by witnesses and counterexamples -/

/-- The pydantic-default assumptions (rate 0.30, co2 0.42, typical, 0.8). -/
def defaultAssumptions : Assumptions := {}

/-- The device of the spec's smart-plug example: 2.0 W standby, typical
profile (4 active hours). -/
def devAnchor : Device :=
  { id := "d0", label := "Anchor", standby_watts_typical := 2 }

/-- A 2.0 W standby device used for the schedule-calculator statements. -/
def devSched : Device :=
  { id := "s0", label := "Sched", standby_watts_typical := 2 }

/-- A protected (but not critical) high-standby device: its smart-plug
candidate tops the ranking yet costs more than the small budget below. -/
def devRack : Device :=
  { id := "d1", label := "Server Rack", category := "ServerGear",
    standby_watts_typical := 100 }

/-- An unremarkable 2 W standby device. -/
def devLamp : Device :=
  { id := "d2", label := "Lamp", category := "Lamp", standby_watts_typical := 2 }

/-- A 1 W standby device whose schedule candidate ranks below the rack's
smart-plug candidate. -/
def devFan : Device :=
  { id := "d3", label := "Fan", category := "Fan", standby_watts_typical := 1 }

/-- Budget 10 with the rack protected: exercises the budget-skip behaviour. -/
def consBudget : Constraints :=
  { budget_usd := some 10, do_not_turn_off := some ["server"] }

/-- A critical TV whose label matches the do-not-turn-off list below. -/
def devTV : Device :=
  { id := "tv1", label := "Living Room TV", category := "Television",
    standby_watts_typical := 2, active_watts_typical := 100, is_critical := true }

/-- Constraints protecting the TV by label substring. -/
def consTV : Constraints := { do_not_turn_off := some ["tv"] }

/-- Constraints with a count cap and a budget, for witnesses. -/
def consCap : Constraints := { max_actions := some 3, budget_usd := some 100 }

/-- A concrete stored-action proposal (kind `turn_off`). -/
def propOff : ActionProposal :=
  { deviceId := "dA", label := "A", action_type := "turn_off", parameters := {}
    estimated_annual_kwh_saved := 10, estimated_annual_dollars_saved := 3
    estimated_co2_kg_saved := 4, estimated_cost_usd := 0, payback_months := 0
    feasibility_score := 7/10, rationale := "r", safety_flags := [] }

/-- A second concrete stored-action proposal (kind `schedule`). -/
def propSched : ActionProposal :=
  { deviceId := "dB", label := "B", action_type := "schedule", parameters := {}
    estimated_annual_kwh_saved := 5, estimated_annual_dollars_saved := 2
    estimated_co2_kg_saved := 1, estimated_cost_usd := 0, payback_months := 0
    feasibility_score := 85/100, rationale := "r2", safety_flags := [] }

/-- A stored `proposed` action document built from `propOff`. -/
def docProposed : ActionDocM := mkActionDoc "h1" propOff 0

/-- A one-document store holding `docProposed`. -/
def storeWit : Store := [("a1", docProposed)]

/-- `docProposed` after a failed execution. -/
def docFailed : ActionDocM := { docProposed with status := "failed" }

/-- A one-document store holding `docFailed`. -/
def storeF : Store := [("a1", docFailed)]

/-! ## Claim theorems -/

/-- C6: whenever the external LLM path is unavailable (no API key), raises
any exception, or yields zero valid proposals after per-item validation,
`propose_actions_with_llm` returns exactly the same proposal list as the
deterministic `propose_actions` on the same inputs. -/
theorem C6_llm_fallback (key : String) (llm : Except Unit (List RawLlmItem))
    (devices : List Device) (a : Assumptions) (c : Constraints) (top_n : ℕ)
    (h : key = "" ∨ llm = Except.error () ∨
      ∃ raw, llm = Except.ok raw ∧ (raw.take top_n).filterMap validateLlmItem = []) :
    propose_actions_with_llm key llm devices a c top_n = propose_actions devices a c top_n := by
  rcases h with h | h | ⟨raw, hraw, hval⟩
  · simp [propose_actions_with_llm, h]
  · subst h
    unfold propose_actions_with_llm
    split <;> rfl
  · subst hraw
    unfold propose_actions_with_llm
    split
    · rfl
    · simp [hval]

/-- Witness for C6 at a concrete input (missing API key). -/
theorem C6_llm_fallback_witness :
    propose_actions_with_llm "" (Except.error ()) [devLamp] defaultAssumptions {} 5 =
      propose_actions [devLamp] defaultAssumptions {} 5 :=
  C6_llm_fallback "" (Except.error ()) [devLamp] defaultAssumptions {} 5 (Or.inl rfl)

/-- C9 (amended): the smart-plug calculator returns none exactly below the
0.5 W standby threshold; otherwise its proposal carries the spec formulas,
with `payback_months` rounded to 1 decimal and the 999 default taken whenever
the raw annual dollars are not positive; on the spec's anchor input the saved
kWh is 11.68. -/
theorem C9_smart_plug (device : Device) (a : Assumptions) :
    (device.standby_watts_typical < 1/2 → compute_smart_plug_saving device a = none) ∧
    (¬ device.standby_watts_typical < 1/2 →
      ∃ p, compute_smart_plug_saving device a = some p ∧
        p.estimated_annual_kwh_saved =
          round2 (device.standby_watts_typical * a.standby_reduction *
            (24 - device.active_hours_per_day.getD
              ((PROFILE_ACTIVE_HOURS.lookup a.profile).getD 4)) * 365 / 1000) ∧
        p.estimated_annual_dollars_saved =
          round2 (device.standby_watts_typical * a.standby_reduction *
            (24 - device.active_hours_per_day.getD
              ((PROFILE_ACTIVE_HOURS.lookup a.profile).getD 4)) * 365 / 1000 *
            a.rate_per_kwh) ∧
        p.estimated_cost_usd = 15 ∧
        p.payback_months =
          round1 (if 0 < device.standby_watts_typical * a.standby_reduction *
              (24 - device.active_hours_per_day.getD
                ((PROFILE_ACTIVE_HOURS.lookup a.profile).getD 4)) * 365 / 1000 *
              a.rate_per_kwh then
            15 / (device.standby_watts_typical * a.standby_reduction *
              (24 - device.active_hours_per_day.getD
                ((PROFILE_ACTIVE_HOURS.lookup a.profile).getD 4)) * 365 / 1000 *
              a.rate_per_kwh) * 12
          else 999) ∧
        p.feasibility_score = 9/10) ∧
    (compute_smart_plug_saving devAnchor defaultAssumptions).map
      (fun p => p.estimated_annual_kwh_saved) = some (1168/100) := by
  refine ⟨fun h => ?_, fun h => ?_, by decide⟩
  · unfold compute_smart_plug_saving
    rw [if_pos h]
  · simp only [compute_smart_plug_saving, if_neg h]
    exact ⟨_, rfl, rfl, rfl, rfl, rfl, rfl⟩

/-- Witness for C9 at the anchor device. -/
theorem C9_smart_plug_witness :
    compute_smart_plug_saving devAnchor defaultAssumptions ≠ none := by
  obtain ⟨p, hp, -⟩ := (C9_smart_plug devAnchor defaultAssumptions).2.1 (by decide)
  simp [hp]

/-- Counterexample to C9 as stated: on the spec's own anchor input the stored
`payback_months` is 51.4 (rounded to 1 decimal), which differs from
`cost/dollars × 12` whether `dollars` is read as the raw value 3.504 or the
stored rounded value 3.5. -/
theorem C9_counterexample :
    (compute_smart_plug_saving devAnchor defaultAssumptions).map
        (fun p => p.payback_months) = some (257/5) ∧
    (257/5 : ℚ) ≠ 15 / (1168/100 * (3/10)) * 12 ∧
    (257/5 : ℚ) ≠ 15 / (35/10) * 12 := by decide

/-- C10 (code bug): on a quiet-hours first entry with no `-` the hour parse
falls back to the default 8 as the claim says, and on the same device the
empty quiet list yields a proposal (annual dollars 1.752 ≥ 0.50), yet the
dash-less entry makes `_compute_schedule_saving` raise `IndexError` at the
unguarded `quiet_hours[0].split("-")[1]` instead of returning that
proposal. -/
theorem C10_schedule_crash :
    scheduleHoursOf ["2300"] = 8 ∧
    ((compute_schedule_saving devSched defaultAssumptions []).toOption.getD none).isSome
      = true ∧
    compute_schedule_saving devSched defaultAssumptions ["2300"] = Except.error () := by
  decide

/-! ### Greedy-scan lemmas -/

/-- Every prefix of the greedy selection stays within the remaining budget it
started from. -/
theorem greedyLoop_take_sumCost (m : ℤ) (cs : List ActionProposal) :
    ∀ (k n : ℕ) (r : ℚ), 0 ≤ r → sumCost ((greedyLoop m cs k r).take n) ≤ r := by
  induction cs with
  | nil =>
    intro k n r hr
    simpa [greedyLoop, sumCost] using hr
  | cons c cs ih =>
    intro k n r hr
    unfold greedyLoop
    by_cases hm : m ≤ (k : ℤ)
    · rw [if_pos hm]
      simpa [sumCost] using hr
    · rw [if_neg hm]
      by_cases hc : c.estimated_cost_usd ≤ r
      · rw [if_pos hc]
        cases n with
        | zero => simpa [sumCost] using hr
        | succ n =>
          rw [List.take_succ_cons]
          have h2 := ih (k + 1) n (r - c.estimated_cost_usd) (by linarith)
          simp only [sumCost, List.map_cons, List.sum_cons] at h2 ⊢
          linarith
      · rw [if_neg hc]
        exact ih k n r hr

/-- The greedy selection never exceeds the remaining action allowance. -/
theorem greedyLoop_length (m : ℤ) (cs : List ActionProposal) :
    ∀ (k : ℕ) (r : ℚ), ((greedyLoop m cs k r).length : ℤ) ≤ max 0 (m - k) := by
  induction cs with
  | nil =>
    intro k r
    simp [greedyLoop]
  | cons c cs ih =>
    intro k r
    unfold greedyLoop
    by_cases hm : m ≤ (k : ℤ)
    · rw [if_pos hm]
      simp
    · rw [if_neg hm]
      by_cases hc : c.estimated_cost_usd ≤ r
      · rw [if_pos hc]
        have h2 := ih (k + 1) (r - c.estimated_cost_usd)
        simp only [List.length_cons]
        push_cast at h2 ⊢
        omega
      · rw [if_neg hc]
        exact le_trans (ih k r) (by omega)

/-- Everything the greedy scan selects comes from its candidate list. -/
theorem greedyLoop_subset (m : ℤ) (cs : List ActionProposal) :
    ∀ (k : ℕ) (r : ℚ) (p : ActionProposal), p ∈ greedyLoop m cs k r → p ∈ cs := by
  induction cs with
  | nil =>
    intro k r p h
    simp [greedyLoop] at h
  | cons c cs ih =>
    intro k r p h
    unfold greedyLoop at h
    by_cases hm : m ≤ (k : ℤ)
    · rw [if_pos hm] at h
      simp at h
    · rw [if_neg hm] at h
      by_cases hc : c.estimated_cost_usd ≤ r
      · rw [if_pos hc] at h
        rcases List.mem_cons.mp h with h | h
        · exact List.mem_cons.mpr (Or.inl h)
        · exact List.mem_cons_of_mem _ (ih _ _ _ h)
      · rw [if_neg hc] at h
        exact List.mem_cons_of_mem _ (ih _ _ _ h)

/-- C3: when the constraints carry `max_actions ≥ 1` and `budget_usd ≥ 0`,
any selection returned by `propose_actions` costs at most the budget and has
at most `min(max_actions, top_n)` entries. -/
theorem C3_budget_and_count (devices : List Device) (a : Assumptions) (c : Constraints)
    (top_n : ℕ) (sel : List ActionProposal) (m : ℤ) (b : ℚ)
    (hm : c.max_actions = some m) (hm1 : 1 ≤ m)
    (hb : c.budget_usd = some b) (hb0 : 0 ≤ b)
    (h : propose_actions devices a c top_n = Except.ok sel) :
    sumCost sel ≤ b ∧ (sel.length : ℤ) ≤ min m (top_n : ℤ) := by
  unfold propose_actions at h
  rw [hm, hb] at h
  simp only [Option.getD_some] at h
  rcases hcand : allCandidates devices a ((c.do_not_turn_off.getD []).map pyLower)
      (c.quiet_hours.getD ["23:00-07:00"]) with e | cand
  · rw [hcand] at h
    simp at h
  · rw [hcand] at h
    simp only [Except.ok.injEq] at h
    subst h
    refine ⟨greedyLoop_take_sumCost m (rankCandidates cand) 0 top_n b hb0, ?_⟩
    have h2 := greedyLoop_length m (rankCandidates cand) 0 b
    rw [List.length_take]
    push_cast at h2 ⊢
    omega

/-- Witness for C3 at a concrete input. -/
theorem C3_budget_and_count_witness :
    sumCost ((propose_actions [devLamp] defaultAssumptions consCap 5).toOption.getD [])
        ≤ 100 ∧
    ((((propose_actions [devLamp] defaultAssumptions consCap 5).toOption.getD []).length : ℤ)
        ≤ min 3 (5 : ℤ)) :=
  C3_budget_and_count [devLamp] defaultAssumptions consCap 5
    ((propose_actions [devLamp] defaultAssumptions consCap 5).toOption.getD [])
    3 100 rfl (by norm_num) rfl (by norm_num) (by decide)

/-! ### Per-calculator and per-block lemmas -/

/-- A smart-plug proposal carries its device's id and the `smart_plug` kind. -/
theorem smart_plug_fields (d : Device) (a : Assumptions) (p : ActionProposal)
    (h : compute_smart_plug_saving d a = some p) :
    p.deviceId = d.id ∧ p.action_type = "smart_plug" := by
  simp only [compute_smart_plug_saving] at h
  split at h
  · exact absurd h (by simp)
  · simp only [Option.some.injEq] at h
    subst h
    exact ⟨rfl, rfl⟩

/-- An eco-mode proposal carries its device's id and the `set_mode` kind. -/
theorem eco_mode_fields (d : Device) (a : Assumptions) (p : ActionProposal)
    (h : compute_eco_mode_saving d a = some p) :
    p.deviceId = d.id ∧ p.action_type = "set_mode" := by
  simp only [compute_eco_mode_saving] at h
  split at h
  · exact absurd h (by simp)
  · split at h
    · exact absurd h (by simp)
    · simp only [Option.some.injEq] at h
      subst h
      exact ⟨rfl, rfl⟩

/-- A turn-off proposal carries its device's id and the `turn_off` kind. -/
theorem turn_off_fields (d : Device) (a : Assumptions) (p : ActionProposal)
    (h : compute_turn_off_saving d a = some p) :
    p.deviceId = d.id ∧ p.action_type = "turn_off" := by
  simp only [compute_turn_off_saving] at h
  split at h
  · exact absurd h (by simp)
  · simp only [Option.some.injEq] at h
    subst h
    exact ⟨rfl, rfl⟩

/-- A replace proposal carries its device's id and the `replace` kind. -/
theorem replace_fields (d : Device) (a : Assumptions) (p : ActionProposal)
    (h : compute_replace_saving d a = some p) :
    p.deviceId = d.id ∧ p.action_type = "replace" := by
  simp only [compute_replace_saving] at h
  split at h
  all_goals split at h
  all_goals first
    | (simp only [Option.some.injEq] at h
       subst h
       exact ⟨rfl, rfl⟩)
    | simp at h

/-- A schedule proposal carries its device's id and the `schedule` kind. -/
theorem schedule_fields (d : Device) (a : Assumptions) (qh : List String)
    (p : ActionProposal) (h : compute_schedule_saving d a qh = Except.ok (some p)) :
    p.deviceId = d.id ∧ p.action_type = "schedule" := by
  simp only [compute_schedule_saving] at h
  split at h
  · simp at h
  · split at h
    all_goals try split at h
    all_goals first
      | (simp only [Except.ok.injEq, Option.some.injEq] at h
         subst h
         exact ⟨rfl, rfl⟩)
      | simp at h

/-- Members of the smart-plug block carry the device's id, and their kind is
`smart_plug` or (converted) `suggest_manual`. -/
theorem smart_plug_block_mem (d : Device) (a : Assumptions) (c pr : Bool)
    (p : ActionProposal) (hp : p ∈ smart_plug_block d a c pr) :
    p.deviceId = d.id ∧
      (p.action_type = "smart_plug" ∨ p.action_type = "suggest_manual") := by
  rcases hq : compute_smart_plug_saving d a with _ | q
  · simp [smart_plug_block, hq] at hp
  · simp only [smart_plug_block, hq] at hp
    have hf := smart_plug_fields d a q hq
    split at hp
    · simp only [List.mem_singleton] at hp
      subst hp
      exact ⟨hf.1, Or.inl hf.2⟩
    · split at hp
      · simp only [List.mem_singleton] at hp
        subst hp
        refine ⟨?_, Or.inr (by simp [convertCriticalPlug])⟩
        simpa [convertCriticalPlug] using hf.1
      · simp at hp

/-- Members of the schedule block carry the device's id, their kind is
`schedule` or (converted) `suggest_manual`, and the block is empty for a
protected device. -/
theorem schedule_block_mem (d : Device) (a : Assumptions) (qh : List String)
    (c pr : Bool) (sched : List ActionProposal)
    (hsb : schedule_block d a qh c pr = Except.ok sched)
    (p : ActionProposal) (hp : p ∈ sched) :
    pr = false ∧ p.deviceId = d.id ∧
      (p.action_type = "schedule" ∨ p.action_type = "suggest_manual") := by
  cases pr with
  | true =>
    simp only [schedule_block, Bool.not_true] at hsb
    simp only [Bool.false_eq_true, if_false, Except.ok.injEq] at hsb
    subst hsb
    simp at hp
  | false =>
    rcases hq : compute_schedule_saving d a qh with e | oq
    · simp [schedule_block, hq] at hsb
    · cases oq with
      | none =>
        simp only [schedule_block, Bool.not_false, if_true, hq, Except.ok.injEq] at hsb
        subst hsb
        simp at hp
      | some q =>
        simp only [schedule_block, Bool.not_false, if_true, hq, Except.ok.injEq] at hsb
        subst hsb
        have hf := schedule_fields d a qh q hq
        refine ⟨rfl, ?_⟩
        split at hp
        · simp only [List.mem_singleton] at hp
          subst hp
          exact ⟨by simpa [convertCriticalSchedule] using hf.1,
            Or.inr (by simp [convertCriticalSchedule])⟩
        · simp only [List.mem_singleton] at hp
          subst hp
          exact ⟨hf.1, Or.inl hf.2⟩

/-- Members of the turn-off block carry the device's id and the `turn_off`
kind, and only exist for devices that are neither critical nor protected. -/
theorem turn_off_block_mem (d : Device) (a : Assumptions) (c pr : Bool)
    (p : ActionProposal) (hp : p ∈ turn_off_block d a c pr) :
    c = false ∧ pr = false ∧ p.deviceId = d.id ∧ p.action_type = "turn_off" := by
  cases c with
  | true => simp [turn_off_block] at hp
  | false =>
    cases pr with
    | true => simp [turn_off_block] at hp
    | false =>
      rcases hq : compute_turn_off_saving d a with _ | q
      · simp [turn_off_block, hq] at hp
      · simp only [turn_off_block, hq, Bool.not_false, Bool.and_self, if_true,
          Option.toList_some, List.mem_singleton] at hp
        have hf := turn_off_fields d a q hq
        subst hp
        exact ⟨rfl, rfl, hf.1, hf.2⟩

/-- For a critical and protected device the smart-plug block emits only the
converted `suggest_manual` proposal. -/
theorem smart_plug_block_crit_prot (d : Device) (a : Assumptions) (p : ActionProposal)
    (hp : p ∈ smart_plug_block d a true true) : p.action_type = "suggest_manual" := by
  rcases hq : compute_smart_plug_saving d a with _ | q
  · simp [smart_plug_block, hq] at hp
  · simp [smart_plug_block, hq] at hp
    subst hp
    simp [convertCriticalPlug]

/-- Every candidate a device contributes carries that device's id, and a
critical, protected device contributes only `suggest_manual`, `set_mode` or
`replace` candidates. -/
theorem deviceCandidates_mem (d : Device) (a : Assumptions) (dnto : List String)
    (qh : List String) (cs : List ActionProposal)
    (h : deviceCandidates d a dnto qh = Except.ok cs)
    (p : ActionProposal) (hp : p ∈ cs) :
    p.deviceId = d.id ∧
      (d.is_critical = true → isProtectedDev dnto d = true →
        p.action_type ∈ (["suggest_manual", "set_mode", "replace"] : List String)) := by
  rcases hsb : schedule_block d a qh d.is_critical (isProtectedDev dnto d) with e | sched
  · simp [deviceCandidates, hsb] at h
  · simp only [deviceCandidates, hsb, Except.ok.injEq] at h
    subst h
    simp only [List.mem_append, or_assoc] at hp
    rcases hp with hp | hp | hp | hp | hp
    · have hm := smart_plug_block_mem d a _ _ p hp
      refine ⟨hm.1, fun hc hpr => ?_⟩
      rw [hc, hpr] at hp
      have := smart_plug_block_crit_prot d a p hp
      simp [this]
    · have hm := schedule_block_mem d a qh _ _ sched hsb p hp
      refine ⟨hm.2.1, fun hc hpr => ?_⟩
      rw [hpr] at hm
      simp at hm
    · simp only [Option.mem_toList, Option.mem_def] at hp
      have hm := eco_mode_fields d a p hp
      exact ⟨hm.1, fun _ _ => by simp [hm.2]⟩
    · have hm := turn_off_block_mem d a _ _ p hp
      refine ⟨hm.2.2.1, fun hc hpr => ?_⟩
      rw [hc] at hm
      simp at hm
    · simp only [Option.mem_toList, Option.mem_def] at hp
      have hm := replace_fields d a p hp
      exact ⟨hm.1, fun _ _ => by simp [hm.2]⟩

/-- Every candidate in the full candidate list comes from some device of the
input list. -/
theorem allCandidates_mem (devices : List Device) (a : Assumptions)
    (dnto : List String) (qh : List String) (l : List ActionProposal)
    (h : allCandidates devices a dnto qh = Except.ok l)
    (p : ActionProposal) (hp : p ∈ l) :
    ∃ d ∈ devices, ∃ cs, deviceCandidates d a dnto qh = Except.ok cs ∧ p ∈ cs := by
  induction devices generalizing l with
  | nil =>
    simp only [allCandidates, Except.ok.injEq] at h
    subst h
    simp at hp
  | cons d ds ih =>
    unfold allCandidates at h
    rcases h1 : deviceCandidates d a dnto qh with e | cs₁
    · rw [h1] at h
      simp at h
    · rw [h1] at h
      rcases h2 : allCandidates ds a dnto qh with e | rest
      · rw [h2] at h
        simp at h
      · rw [h2] at h
        simp only [Except.ok.injEq] at h
        subst h
        rcases List.mem_append.mp hp with hmem | hmem
        · exact ⟨d, List.mem_cons_self d ds, cs₁, h1, hmem⟩
        · obtain ⟨d2, hd2, cs2, hcs2, hp2⟩ := ih rest h2 hmem
          exact ⟨d2, List.mem_cons_of_mem _ hd2, cs2, hcs2, hp2⟩

/-- C2 (amended): a critical device matching the do-not-turn-off list never
reaches the output as `turn_off` or `schedule`; its proposals can only be
`suggest_manual` (converted smart-plug), `set_mode` or `replace`. -/
theorem C2_critical_protected (devices : List Device) (a : Assumptions) (c : Constraints)
    (top_n : ℕ) (sel : List ActionProposal) (d : Device) (p : ActionProposal)
    (hsel : propose_actions devices a c top_n = Except.ok sel)
    (hd : d ∈ devices) (hcrit : d.is_critical = true)
    (hprot : isProtectedDev ((c.do_not_turn_off.getD []).map pyLower) d = true)
    (hp : p ∈ sel) (hpid : p.deviceId = d.id)
    (huniq : ∀ d2 ∈ devices, d2.id = d.id → d2 = d) :
    p.action_type ≠ "turn_off" ∧ p.action_type ≠ "schedule" ∧
      p.action_type ∈ (["suggest_manual", "set_mode", "replace"] : List String) := by
  simp only [propose_actions] at hsel
  rcases hcand : allCandidates devices a ((c.do_not_turn_off.getD []).map pyLower)
      (c.quiet_hours.getD ["23:00-07:00"]) with e | cand
  · rw [hcand] at hsel
    simp at hsel
  · rw [hcand] at hsel
    simp only [Except.ok.injEq] at hsel
    subst hsel
    have hp1 : p ∈ rankCandidates cand :=
      greedyLoop_subset _ _ _ _ _ (List.take_subset _ _ hp)
    unfold rankCandidates at hp1
    have hp2 : p ∈ cand := List.mem_mergeSort.mp hp1
    obtain ⟨d2, hd2, cs2, hcs2, hpcs⟩ :=
      allCandidates_mem devices a _ _ cand hcand p hp2
    have hm := deviceCandidates_mem d2 a _ _ cs2 hcs2 p hpcs
    have hdd : d2 = d := huniq d2 hd2 (by rw [← hm.1, hpid])
    subst hdd
    have hmem := hm.2 hcrit hprot
    refine ⟨?_, ?_, hmem⟩
    · intro hcontra
      rw [hcontra] at hmem
      simp at hmem
    · intro hcontra
      rw [hcontra] at hmem
      simp at hmem

/-- Witness for C2 at a concrete critical, protected TV. -/
theorem C2_critical_protected_witness :
    (((propose_actions [devTV] defaultAssumptions consTV 5).toOption.getD
        []).headD propOff).action_type ≠ "turn_off" ∧
    (((propose_actions [devTV] defaultAssumptions consTV 5).toOption.getD
        []).headD propOff).action_type ≠ "schedule" ∧
    (((propose_actions [devTV] defaultAssumptions consTV 5).toOption.getD
        []).headD propOff).action_type ∈
      (["suggest_manual", "set_mode", "replace"] : List String) :=
  C2_critical_protected [devTV] defaultAssumptions consTV 5
    ((propose_actions [devTV] defaultAssumptions consTV 5).toOption.getD [])
    devTV
    (((propose_actions [devTV] defaultAssumptions consTV 5).toOption.getD []).headD propOff)
    (by decide) (by decide) (by decide) (by decide) (by decide) (by decide) (by decide)

/-- Counterexample to C2 as stated: the critical, protected TV still reaches
the output with an unconverted `set_mode` proposal, so not every proposal for
such a device is `suggest_manual`. -/
theorem C2_counterexample :
    devTV.is_critical = true ∧
    isProtectedDev ((consTV.do_not_turn_off.getD []).map pyLower) devTV = true ∧
    (((propose_actions [devTV] defaultAssumptions consTV 5).toOption.getD []).any
      fun p => p.deviceId == "tv1" && !(p.action_type == "suggest_manual")) = true := by
  decide

/-- C1 (amended): whenever the smart-plug calculator returns a proposal, a
device that is both critical and protected gets it converted to
`suggest_manual` with feasibility 0.4, an appended `critical_device` flag and
the rationale prefixed `[Critical]`; in every other case (critical only,
protected only, or neither) the proposal is included unchanged. -/
theorem C1_smart_plug_policy (device : Device) (a : Assumptions) (crit prot : Bool)
    (p : ActionProposal) (hp : compute_smart_plug_saving device a = some p) :
    (crit = true → prot = true →
      ∃ q, smart_plug_block device a crit prot = [q] ∧
        q.action_type = "suggest_manual" ∧ q.feasibility_score = 4/10 ∧
        q.safety_flags = p.safety_flags ++ ["critical_device"] ∧
        q.rationale = "[Critical] " ++ p.rationale ++ " — requires manual approval." ∧
        q.deviceId = p.deviceId ∧ q.label = p.label ∧ q.parameters = p.parameters ∧
        q.estimated_annual_kwh_saved = p.estimated_annual_kwh_saved ∧
        q.estimated_annual_dollars_saved = p.estimated_annual_dollars_saved ∧
        q.estimated_co2_kg_saved = p.estimated_co2_kg_saved ∧
        q.estimated_cost_usd = p.estimated_cost_usd ∧
        q.payback_months = p.payback_months) ∧
    (¬ (crit = true ∧ prot = true) → smart_plug_block device a crit prot = [p]) := by
  constructor
  · intro hc hpr
    subst hc
    subst hpr
    refine ⟨convertCriticalPlug p, ?_, by simp [convertCriticalPlug], by simp [convertCriticalPlug],
      by simp [convertCriticalPlug], by simp [convertCriticalPlug], by simp [convertCriticalPlug],
      by simp [convertCriticalPlug], by simp [convertCriticalPlug], by simp [convertCriticalPlug],
      by simp [convertCriticalPlug], by simp [convertCriticalPlug], by simp [convertCriticalPlug],
      by simp [convertCriticalPlug]⟩
    simp [smart_plug_block, hp]
  · intro hnc
    cases crit <;> cases prot <;> simp_all [smart_plug_block, hp]

/-- Witness for C1 at the concrete critical, protected TV. -/
theorem C1_smart_plug_policy_witness :
    smart_plug_block devTV defaultAssumptions true true ≠ [] := by
  obtain ⟨q, hq, -⟩ :=
    (C1_smart_plug_policy devTV defaultAssumptions true true
      ((compute_smart_plug_saving devTV defaultAssumptions).getD propOff)
      (by decide)).1 rfl rfl
  simp [hq]

/-- Counterexample to C1 as stated: for the critical, protected TV the
smart-plug proposal is not skipped — `propose_actions` still emits it, in
converted `suggest_manual` form (recognizable by its smart-plug parameters
and feasibility 0.4). -/
theorem C1_counterexample :
    devTV.is_critical = true ∧
    isProtectedDev ((consTV.do_not_turn_off.getD []).map pyLower) devTV = true ∧
    (compute_smart_plug_saving devTV defaultAssumptions).isSome = true ∧
    (((propose_actions [devTV] defaultAssumptions consTV 5).toOption.getD []).any
      fun p => p.action_type == "suggest_manual" &&
        p.parameters.plug_model == some "generic_wifi" &&
        p.feasibility_score == (4/10 : ℚ)) = true := by
  decide

/-- C7: candidates are ranked in descending order of
`dollars_saved / max(0.1, cost_usd)`, and the greedy scan skips an
over-budget candidate without stopping: concretely, with budget 10 the
top-of-list 15-dollar rack smart-plug candidate is passed over while the
cheaper, lower-ranked fan schedule candidate after it is still selected. -/
theorem C7_rank_and_budget_skip :
    (∀ cands : List ActionProposal,
      (rankCandidates cands).Pairwise fun x y => rankKey y ≤ rankKey x) ∧
    (allCandidates [devRack, devLamp, devFan] defaultAssumptions ["server"]
        ["23:00-07:00"]).toOption.map
        (fun l => (rankCandidates l).map fun p =>
          (p.deviceId, p.action_type, p.estimated_cost_usd)) =
      some [("d2", "turn_off", 0), ("d3", "turn_off", 0), ("d2", "schedule", 0),
        ("d1", "smart_plug", 15), ("d3", "schedule", 0), ("d1", "replace", 200),
        ("d2", "smart_plug", 15), ("d3", "smart_plug", 15)] ∧
    consBudget.budget_usd = some 10 ∧ ¬ ((15 : ℚ) ≤ 10) ∧
    (propose_actions [devRack, devLamp, devFan] defaultAssumptions consBudget 5).toOption.map
        (fun l => l.map fun p => (p.deviceId, p.action_type)) =
      some [("d2", "turn_off"), ("d3", "turn_off"), ("d2", "schedule"),
        ("d3", "schedule")] := by
  refine ⟨fun cands => ?_, by decide, by decide, by decide, by decide⟩
  have htrans : ∀ (x y z : ActionProposal),
      (fun x y => decide (rankKey y ≤ rankKey x)) x y = true →
      (fun x y => decide (rankKey y ≤ rankKey x)) y z = true →
      (fun x y => decide (rankKey y ≤ rankKey x)) x z = true := by
    intro x y z hxy hyz
    simp only [decide_eq_true_eq] at hxy hyz ⊢
    exact le_trans hyz hxy
  have htotal : ∀ (x y : ActionProposal),
      ((fun x y => decide (rankKey y ≤ rankKey x)) x y ||
        (fun x y => decide (rankKey y ≤ rankKey x)) y x) = true := by
    intro x y
    simp only [Bool.or_eq_true, decide_eq_true_eq]
    exact le_total (rankKey y) (rankKey x)
  have h := List.sorted_mergeSort htrans htotal cands
  unfold rankCandidates
  exact h.imp fun hxy => of_decide_eq_true hxy

/-! ### Action-store lemmas -/

theorem findOne_updateFirst (f : ActionDocM → ActionDocM) (aid aid2 : String) (store : Store) :
    findOne (updateFirst f aid store) aid2 =
      if aid2 = aid then (findOne store aid2).map f else findOne store aid2 := by
  induction store with
  | nil => simp [findOne, updateFirst]
  | cons kv rest ih =>
    by_cases hk : kv.1 = aid
    · by_cases h2 : kv.1 = aid2
      · have h3 : aid2 = aid := h2.symm.trans hk
        simp [findOne, updateFirst, hk, h2, h3, List.find?_cons]
      · have h3 : ¬ aid2 = aid := fun hh => h2 (hk.trans hh.symm)
        simp only [updateFirst, if_pos hk]
        simp [findOne, List.find?_cons, h2, h3]
    · simp only [updateFirst, if_neg hk]
      by_cases h2 : kv.1 = aid2
      · have h3 : ¬ aid2 = aid := fun hh => hk (h2.trans hh)
        simp [findOne, List.find?_cons, h2, h3, hk]
      · simp only [findOne, List.find?_cons] at ih ⊢
        simp [h2]
        simpa [findOne] using ih

theorem sameExceptExec_refl (d : ActionDocM) : sameExceptExec d d := by
  unfold sameExceptExec
  repeat' constructor

theorem sameExceptExec_trans (a b c : ActionDocM)
    (h1 : sameExceptExec a b) (h2 : sameExceptExec b c) : sameExceptExec a c := by
  unfold sameExceptExec at *
  obtain ⟨x1, x2, x3, x4, x5, x6, x7, x8, x9, x10, x11, x12⟩ := h1
  obtain ⟨y1, y2, y3, y4, y5, y6, y7, y8, y9, y10, y11, y12⟩ := h2
  exact ⟨x1.trans y1, x2.trans y2, x3.trans y3, x4.trans y4, x5.trans y5, x6.trans y6,
    x7.trans y7, x8.trans y8, x9.trans y9, x10.trans y10, x11.trans y11, x12.trans y12⟩

theorem exec_one_frame (store : Store) (now : ℕ) (aid aid2 : String) (doc : ActionDocM)
    (h : findOne store aid2 = some doc) :
    ∃ doc2, findOne (exec_one store now aid).1 aid2 = some doc2 ∧ sameExceptExec doc doc2 := by
  rcases hq : findOne store aid with _ | d
  · simp only [exec_one, hq]
    exact ⟨doc, h, sameExceptExec_refl doc⟩
  · simp only [exec_one, hq]
    split
    · split
      · by_cases haid : aid2 = aid
        · refine ⟨{ doc with status := "executed", executedAt := some now }, ?_, ?_⟩
          · rw [findOne_updateFirst, if_pos haid, h]
            rfl
          · unfold sameExceptExec
            repeat' constructor
        · refine ⟨doc, ?_, sameExceptExec_refl doc⟩
          rw [findOne_updateFirst, if_neg haid, h]
      · by_cases haid : aid2 = aid
        · refine ⟨{ doc with status := "failed" }, ?_, ?_⟩
          · rw [findOne_updateFirst, if_pos haid, h]
            rfl
          · unfold sameExceptExec
            repeat' constructor
        · refine ⟨doc, ?_, sameExceptExec_refl doc⟩
          rw [findOne_updateFirst, if_neg haid, h]
    · exact ⟨doc, h, sameExceptExec_refl doc⟩

theorem execute_actions_frame (ids : List String) (store : Store) (now : ℕ)
    (aid : String) (doc : ActionDocM) (h : findOne store aid = some doc) :
    ∃ doc2, findOne (execute_actions ids store now).1 aid = some doc2 ∧
      sameExceptExec doc doc2 := by
  induction ids generalizing store doc with
  | nil => exact ⟨doc, h, sameExceptExec_refl doc⟩
  | cons i ids ih =>
    obtain ⟨doc1, h1, hf1⟩ := exec_one_frame store now i aid doc h
    obtain ⟨doc2, h2, hf2⟩ := ih (exec_one store now i).1 doc1 h1
    refine ⟨doc2, ?_, sameExceptExec_trans doc doc1 doc2 hf1 hf2⟩
    simpa [execute_actions] using h2

theorem sameExceptRevert_refl (d : ActionDocM) : sameExceptRevert d d := by
  unfold sameExceptRevert
  repeat' constructor

theorem revert_action_frame (store : Store) (now : ℕ) (rid aid : String)
    (doc : ActionDocM) (h : findOne store aid = some doc) :
    ∃ doc2, findOne (revert_action store now rid).1 aid = some doc2 ∧
      sameExceptRevert doc doc2 := by
  rcases hq : findOne store rid with _ | d
  · simp only [revert_action, hq]
    exact ⟨doc, h, sameExceptRevert_refl doc⟩
  · simp only [revert_action, hq]
    split
    · by_cases haid : aid = rid
      · refine ⟨{ doc with status := "reverted", revertedAt := some now }, ?_, ?_⟩
        · rw [findOne_updateFirst, if_pos haid, h]
          rfl
        · unfold sameExceptRevert
          repeat' constructor
      · refine ⟨doc, ?_, sameExceptRevert_refl doc⟩
        rw [findOne_updateFirst, if_neg haid, h]
    · exact ⟨doc, h, sameExceptRevert_refl doc⟩


theorem exec_one_success (store : Store) (now : ℕ) (aid : String) (doc : ActionDocM)
    (h : findOne store aid = some doc) (hst : doc.status = "proposed")
    (hknown : knownActionTypes.contains doc.action_type = true) :
    exec_one store now aid =
      (updateFirst (fun d => { d with status := "executed", executedAt := some now }) aid store,
        ⟨aid, "executed", none⟩) := by
  simp only [exec_one, h]
  rw [if_pos (Or.inl hst), if_pos hknown]

/-- C4: executing an action whose status is not `proposed`/`scheduled`
returns a structured per-id result carrying the current status and an error,
with no state transition; reverting a non-`executed` doc likewise fails
citing the current status and leaves the store unchanged; and a second
execute on the same id reports the `executed` state-conflict without
touching the store (hence `executedAt`) set by the first. -/
theorem C4_illegal_state_results :
    (∀ (store : Store) (now : ℕ) (aid : String) (doc : ActionDocM),
      findOne store aid = some doc →
      doc.status ≠ "proposed" → doc.status ≠ "scheduled" →
      execute_actions [aid] store now =
        (store, [⟨aid, doc.status, some ("Cannot execute action in state " ++ doc.status)⟩])) ∧
    (∀ (store : Store) (now : ℕ) (aid : String) (doc : ActionDocM),
      findOne store aid = some doc → doc.status ≠ "executed" →
      revert_action store now aid =
        (store, ⟨false, some ("Cannot revert action in state " ++ doc.status), none, none⟩)) ∧
    (∀ (store : Store) (now1 now2 : ℕ) (aid : String) (doc : ActionDocM),
      findOne store aid = some doc → doc.status = "proposed" →
      knownActionTypes.contains doc.action_type = true →
      execute_actions [aid] store now1 =
        (updateFirst (fun d => { d with status := "executed", executedAt := some now1 }) aid store,
          [⟨aid, "executed", none⟩]) ∧
      findOne (execute_actions [aid] store now1).1 aid =
        some { doc with status := "executed", executedAt := some now1 } ∧
      execute_actions [aid] (execute_actions [aid] store now1).1 now2 =
        ((execute_actions [aid] store now1).1,
          [⟨aid, "executed", some ("Cannot execute action in state " ++ "executed")⟩])) := by
  refine ⟨?_, ?_, ?_⟩
  · intro store now aid doc hdoc h1 h2
    have hcond : ¬ (doc.status = "proposed" ∨ doc.status = "scheduled") := by
      rintro (hh | hh)
      · exact h1 hh
      · exact h2 hh
    simp only [execute_actions, exec_one, hdoc]
    rw [if_neg hcond]
  · intro store now aid doc hdoc h1
    simp only [revert_action, hdoc]
    rw [if_neg h1]
  · intro store now1 now2 aid doc hdoc hst hknown
    have hx := exec_one_success store now1 aid doc hdoc hst hknown
    have hfirst : execute_actions [aid] store now1 =
        (updateFirst (fun d => { d with status := "executed", executedAt := some now1 }) aid store,
          [⟨aid, "executed", none⟩]) := by
      simp only [execute_actions, hx]
    have hdoc2 : findOne (execute_actions [aid] store now1).1 aid =
        some { doc with status := "executed", executedAt := some now1 } := by
      rw [hfirst]
      simp only
      rw [findOne_updateFirst, if_pos rfl, hdoc]
      rfl
    refine ⟨hfirst, hdoc2, ?_⟩
    have hcond : ¬ (({ doc with status := "executed", executedAt := some now1} : ActionDocM).status
        = "proposed" ∨
        ({ doc with status := "executed", executedAt := some now1} : ActionDocM).status = "scheduled") := by
      simp
    have hdoc3 : findOne (updateFirst
        (fun d => { d with status := "executed", executedAt := some now1 }) aid store) aid =
        some { doc with status := "executed", executedAt := some now1 } := by
      rw [findOne_updateFirst, if_pos rfl, hdoc]
      rfl
    rw [hfirst]
    simp only [execute_actions, exec_one, hdoc3]
    rw [if_neg hcond]

theorem C4_illegal_state_results_witness :
    execute_actions ["a1"] storeF 5 =
      (storeF, [⟨"a1", docFailed.status,
        some ("Cannot execute action in state " ++ docFailed.status)⟩]) ∧
    revert_action storeF 5 "a1" =
      (storeF, ⟨false, some ("Cannot revert action in state " ++ docFailed.status),
        none, none⟩) ∧
    execute_actions ["a1"] (execute_actions ["a1"] storeWit 5).1 6 =
      ((execute_actions ["a1"] storeWit 5).1,
        [⟨"a1", "executed", some ("Cannot execute action in state " ++ "executed")⟩]) :=
  ⟨C4_illegal_state_results.1 storeF 5 "a1" docFailed (by decide) (by decide) (by decide),
   C4_illegal_state_results.2.1 storeF 5 "a1" docFailed (by decide) (by decide),
   (C4_illegal_state_results.2.2 storeWit 5 6 "a1" docProposed (by decide) rfl
      (by decide)).2.2⟩

/-- C5: `execute_actions` and `revert_action` leave every field of every
stored doc other than `status` plus the respective timestamp unchanged — in
particular the `estimated_savings` snapshot written by `store_proposals` is
never modified afterward. -/
theorem C5_savings_immutable :
    (∀ (ids : List String) (store : Store) (now : ℕ) (aid : String) (doc : ActionDocM),
      findOne store aid = some doc →
      ∃ doc2, findOne (execute_actions ids store now).1 aid = some doc2 ∧
        sameExceptExec doc doc2) ∧
    (∀ (store : Store) (now : ℕ) (rid aid : String) (doc : ActionDocM),
      findOne store aid = some doc →
      ∃ doc2, findOne (revert_action store now rid).1 aid = some doc2 ∧
        sameExceptRevert doc doc2) :=
  ⟨fun ids store now aid doc h => execute_actions_frame ids store now aid doc h,
   fun store now rid aid doc h => revert_action_frame store now rid aid doc h⟩

theorem C5_savings_immutable_witness :
    ((findOne (execute_actions ["a1"] storeWit 5).1 "a1").map
      fun d => d.estimated_savings) = some docProposed.estimated_savings := by
  obtain ⟨doc2, hd2, hf⟩ :=
    C5_savings_immutable.1 ["a1"] storeWit 5 "a1" docProposed (by decide)
  unfold sameExceptExec at hf
  obtain ⟨-, -, -, -, -, -, hsav, -, -, -, -, -⟩ := hf
  rw [hd2]
  simp [hsav]

/-- C8: `compute_action_savings` sums the snapshotted savings over exactly
the home's `executed` docs (appending any other doc leaves it unchanged),
counting them and rounding each total to 2 decimals; after executing two
stored proposals and reverting the first, only the second still
contributes. -/
theorem C8_savings_aggregation :
    (∀ (store : Store) (h : String) (kv : String × ActionDocM),
      kv.2.homeId ≠ h ∨ kv.2.status ≠ "executed" →
      compute_action_savings (store ++ [kv]) h = compute_action_savings store h) ∧
    (∀ (h : String) (pA pB : ActionProposal) (t0 t1 t2 : ℕ),
      knownActionTypes.contains pA.action_type = true →
      knownActionTypes.contains pB.action_type = true →
      (store_proposals h t0 [pA, pB] [] 0).2.1 = [memId 1, memId 2] ∧
      compute_action_savings
          (execute_actions (store_proposals h t0 [pA, pB] [] 0).2.1
            (store_proposals h t0 [pA, pB] [] 0).1 t1).1 h =
        ⟨2, round2 (pA.estimated_annual_kwh_saved + pB.estimated_annual_kwh_saved),
          round2 (pA.estimated_annual_dollars_saved + pB.estimated_annual_dollars_saved),
          round2 (pA.estimated_co2_kg_saved + pB.estimated_co2_kg_saved)⟩ ∧
      compute_action_savings
          (revert_action
            (execute_actions (store_proposals h t0 [pA, pB] [] 0).2.1
              (store_proposals h t0 [pA, pB] [] 0).1 t1).1 t2 (memId 1)).1 h =
        ⟨1, round2 pB.estimated_annual_kwh_saved,
          round2 pB.estimated_annual_dollars_saved,
          round2 pB.estimated_co2_kg_saved⟩) := by
  constructor
  · intro store h kv hkv
    rcases hkv with hkv | hkv <;>
      simp [compute_action_savings, executedDocs, List.filter_append, hkv]
  · intro h pA pB t0 t1 t2 hA hB
    have hne : memId 1 ≠ memId 2 := by decide
    have hne' : memId 2 ≠ memId 1 := by decide
    have hA2 : pA.action_type ∈ knownActionTypes := by simpa using hA
    have hB2 : pB.action_type ∈ knownActionTypes := by simpa using hB
    refine ⟨rfl, ?_, ?_⟩
    · simp [store_proposals, execute_actions, exec_one, findOne, updateFirst,
        compute_action_savings, executedDocs, mkActionDoc, hA2, hB2, hne, hne',
        List.find?_cons]
    · simp [store_proposals, execute_actions, exec_one, revert_action, findOne, updateFirst,
        compute_action_savings, executedDocs, mkActionDoc, hA2, hB2, hne, hne',
        List.find?_cons]

/-- Witness for C7: the ranking invariant at a concrete candidate list. -/
theorem C7_rank_and_budget_skip_witness :
    (rankCandidates [propOff, propSched]).Pairwise fun x y => rankKey y ≤ rankKey x :=
  C7_rank_and_budget_skip.1 [propOff, propSched]

/-- Witness for C8 at two concrete proposals: after executing both and
reverting the first, only the second contributes. -/
theorem C8_savings_aggregation_witness :
    compute_action_savings
        (revert_action
          (execute_actions (store_proposals "h1" 0 [propOff, propSched] [] 0).2.1
            (store_proposals "h1" 0 [propOff, propSched] [] 0).1 1).1 2 (memId 1)).1 "h1" =
      ⟨1, round2 propSched.estimated_annual_kwh_saved,
        round2 propSched.estimated_annual_dollars_saved,
        round2 propSched.estimated_co2_kg_saved⟩ :=
  (C8_savings_aggregation.2 "h1" propOff propSched 0 1 2 (by decide) (by decide)).2.2

end SmartGrid
